import Mathlib

/-!
Verification of the TaskFlow task-and-user management service.

The Python data-access layer (models/task.py, models/user.py) and the
application services (services/task_service.py, services/user_service.py)
are embedded shallowly: the SQLite tables become lists of row records with
an autoincrement counter, each repository operation becomes a pure function
on that state, and `datetime.now()` becomes an explicit `now : String`
parameter (timestamps are stored as ISO text, whose order is string order).
The SHA-256 hex digest used by the credential helper is a parameter
`hashHex : String → String` of the password functions.
-/

namespace TaskFlow

/-- Values appearing in the JSON dictionaries produced by `to_dict`. -/
inductive JVal where
  | null
  | str (s : String)
  | int (n : Int)
  | nat (n : Nat)
  | bool (b : Bool)
deriving DecidableEq

/-- Python truthiness of an optional integer (`if user_id:`):
`None` and `0` are falsy. -/
def truthyInt : Option Int → Bool
  | none => false
  | some i => i != 0

/-- Python truthiness of an optional string (`if status:`):
`None` and `""` are falsy. -/
def truthyStr : Option String → Bool
  | none => false
  | some s => s != ""

/-- Python truthiness of an optional row id (`if self.id:`):
`None` and `0` are falsy. -/
def truthyId : Option Nat → Bool
  | none => false
  | some i => i != 0

/-- Python `s.split(sep, 1)` on the character list of `s`: split at the
first occurrence of `sep`, or `none` when `sep` does not occur
(`sep not in s`). -/
def splitOnFirst (sep : Char) : List Char → Option (List Char × List Char)
  | [] => none
  | c :: cs =>
    if c = sep then some ([], cs)
    else
      match splitOnFirst sep cs with
      | none => none
      | some (l, r) => some (c :: l, r)

/-- In-memory `User` entity (models/user.py, `User.__init__` fields).
`created_at` is a plain `String` because `__init__` replaces a missing
value by `datetime.now()`. -/
structure User where
  id : Option Nat
  username : String
  email : String
  password_hash : String
  first_name : String
  last_name : String
  is_active : Bool
  created_at : String
  updated_at : Option String
  last_login : Option String
  api_key : Option String
deriving DecidableEq

/-- `User()` with all defaulted arguments, as in `User.__init__`:
`created_at or datetime.now()` becomes the `now` parameter. -/
def User.init (now : String) : User :=
  { id := none, username := "", email := "", password_hash := "",
    first_name := "", last_name := "", is_active := true,
    created_at := now, updated_at := none, last_login := none,
    api_key := none }

/-- `User.set_password`: store `salt:hashHex(password + salt)`.
The random salt from `secrets.token_hex(16)` is the `salt` parameter;
`hashHex` stands for the SHA-256 hex digest. -/
def User.set_password (hashHex : String → String) (salt : String)
    (password : String) (u : User) : User :=
  { u with password_hash := salt ++ ":" ++ hashHex (password ++ salt) }

/-- `User.check_password`: return false when the stored value is empty or
has no `:`; otherwise split at the first `:` into salt and stored hash,
recompute the digest and compare. -/
def User.check_password (hashHex : String → String) (u : User)
    (password : String) : Bool :=
  if u.password_hash = "" then false
  else
    match splitOnFirst ':' u.password_hash.data with
    | none => false
    | some (saltCs, hashCs) =>
      hashHex (password ++ String.mk saltCs) == String.mk hashCs

/-- `User.generate_api_key`: store the supplied high-entropy token
(the randomness of `secrets.token_urlsafe(32)` is the `key` parameter)
and return it. -/
def User.generate_api_key (key : String) (u : User) : User × String :=
  ({ u with api_key := some key }, key)

/-- One row of the `tasks` table (schema in `Task.save`); nullable TEXT
columns are `Option String`, timestamps being ISO-8601 text. -/
structure TaskRow where
  id : Nat
  title : String
  description : Option String
  status : String
  priority : String
  due_date : Option String
  user_id : Option Int
  created_at : Option String
  updated_at : Option String
  deleted_at : Option String
deriving DecidableEq

/-- The `tasks` table: its rows plus the AUTOINCREMENT counter, which is
always strictly larger than every id ever handed out. -/
structure TaskTable where
  rows : List TaskRow
  nextId : Nat
deriving DecidableEq

/-- In-memory `Task` entity (models/task.py, `Task.__init__` fields).
`created_at` is a plain `String` because `__init__` replaces a missing
value by `datetime.now()`. -/
structure Task where
  id : Option Nat
  title : String
  description : Option String
  status : String
  priority : String
  due_date : Option String
  user_id : Option Int
  created_at : String
  updated_at : Option String
  deleted_at : Option String
deriving DecidableEq

/-- `Task()` with all defaulted arguments, as in `Task.__init__`. -/
def Task.init (now : String) : Task :=
  { id := none, title := "", description := some "", status := "pending",
    priority := "medium", due_date := none, user_id := none,
    created_at := now, updated_at := none, deleted_at := none }

/-- `Task._from_row`: rebuild the entity from a row in column order;
a NULL `created_at` column falls back to `datetime.now()` through
`__init__`. -/
def Task.from_row (now : String) (r : TaskRow) : Task :=
  { id := some r.id, title := r.title, description := r.description,
    status := r.status, priority := r.priority, due_date := r.due_date,
    user_id := r.user_id, created_at := (r.created_at).getD now,
    updated_at := r.updated_at, deleted_at := r.deleted_at }

/-- INSERT branch of `Task.save`: append a fresh row carrying the entity's
fields, `created_at` from the entity, `updated_at = now`, `deleted_at`
NULL, and hand the task the generated id. -/
def Task.insert_row (now : String) (db : TaskTable) (t : Task) :
    TaskTable × Task :=
  ({ rows := db.rows ++
      [{ id := db.nextId, title := t.title, description := t.description,
         status := t.status, priority := t.priority,
         due_date := t.due_date, user_id := t.user_id,
         created_at := some t.created_at, updated_at := some now,
         deleted_at := none }],
     nextId := db.nextId + 1 },
   { t with id := some db.nextId })

/-- `Task.save`: `if self.id:` (truthy id) UPDATE the mutable columns and
bump the row's `updated_at`, else INSERT; the in-memory entity is
returned unchanged by the UPDATE branch. -/
def Task.save (now : String) (db : TaskTable) (t : Task) :
    TaskTable × Task :=
  match t.id with
  | some i =>
    if i = 0 then Task.insert_row now db t
    else
      ({ db with rows := db.rows.map (fun r =>
          if r.id = i then
            { r with
                title := t.title, description := t.description,
                status := t.status, priority := t.priority,
                due_date := t.due_date, user_id := t.user_id,
                updated_at := some now }
          else r) },
       t)
  | none => Task.insert_row now db t

/-- Row selected by `Task.find_by_id`: the first row with the given id
and a NULL `deleted_at`. -/
def Task.find_by_id_row (db : TaskTable) (task_id : Nat) :
    Option TaskRow :=
  db.rows.find? (fun r => r.id == task_id && r.deleted_at == none)

/-- `Task.find_by_id`: the selected row mapped through `_from_row`. -/
def Task.find_by_id (now : String) (db : TaskTable) (task_id : Nat) :
    Option Task :=
  (Task.find_by_id_row db task_id).map (Task.from_row now)

/-- WHERE clause of `Task.find_all`: always `deleted_at IS NULL`; the
`user_id` and `status` equality conditions are appended only when the
supplied filter is truthy in Python's sense. -/
def Task.row_matches (user_id : Option Int) (status : Option String)
    (r : TaskRow) : Bool :=
  r.deleted_at == none
  && (if truthyInt user_id then r.user_id == user_id else true)
  && (if truthyStr status then some r.status == status else true)

/-- ORDER BY `created_at DESC` comparator (`a` may come before `b`):
later ISO timestamps first, NULLs last (NULL is smallest in SQLite). -/
def created_desc (a b : TaskRow) : Bool :=
  match a.created_at, b.created_at with
  | some x, some y => decide (y ≤ x)
  | some _, none => true
  | none, some _ => false
  | none, none => true

/-- Rows selected by `Task.find_all`: non-deleted rows passing the truthy
filters, ordered by `created_at` descending. -/
def Task.find_all_rows (db : TaskTable) (user_id : Option Int)
    (status : Option String) : List TaskRow :=
  (db.rows.filter (Task.row_matches user_id status)).mergeSort created_desc

/-- `Task.find_all`: the selected rows mapped through `_from_row`. -/
def Task.find_all (now : String) (db : TaskTable) (user_id : Option Int)
    (status : Option String) : List Task :=
  (Task.find_all_rows db user_id status).map (Task.from_row now)

/-- `Task.delete`: stamp `deleted_at = now` on every row whose id equals
the entity's id, and mirror the stamp on the entity. -/
def Task.delete (now : String) (db : TaskTable) (t : Task) :
    TaskTable × Task :=
  ({ db with rows := db.rows.map (fun r =>
      if t.id = some r.id then { r with deleted_at := some now } else r) },
   { t with deleted_at := some now })

/-- Dictionary produced by `Task.to_dict` (no `deleted_at` key). -/
structure TaskDict where
  id : Option Nat
  title : String
  description : Option String
  status : String
  priority : String
  due_date : Option String
  user_id : Option Int
  created_at : Option String
  updated_at : Option String
deriving DecidableEq

/-- `Task.to_dict`: serialize the entity; `created_at` is always present
because `__init__` guarantees it. -/
def Task.to_dict (t : Task) : TaskDict :=
  { id := t.id, title := t.title, description := t.description,
    status := t.status, priority := t.priority, due_date := t.due_date,
    user_id := t.user_id, created_at := some t.created_at,
    updated_at := t.updated_at }

/-- Python `str.strip()`: drop whitespace from both ends. -/
def pyStrip (s : String) : String :=
  String.mk (((s.data.dropWhile Char.isWhitespace).reverse.dropWhile
    Char.isWhitespace).reverse)

/-- `Task.validate`: the ordered list of error strings; the due-date check
compares ISO text against `now`. -/
def Task.validate (now : String) (t : Task) : List String :=
  (if t.title = "" ∨ (pyStrip t.title).length = 0
   then ["Title is required"] else [])
  ++ (if 200 < t.title.length
      then ["Title must be less than 200 characters"] else [])
  ++ (if ["pending", "in_progress", "completed", "cancelled"].contains
        t.status then [] else ["Invalid status"])
  ++ (if ["low", "medium", "high", "urgent"].contains t.priority
      then [] else ["Invalid priority"])
  ++ (match t.due_date with
      | some d => if d < now then ["Due date cannot be in the past"] else []
      | none => [])

/-- Fields of a `POST /tasks` payload as consumed by `TaskCreate`:
`title` is required, a `none` field stands for an omitted key. -/
structure TaskCreateData where
  title : String
  description : Option String := none
  status : Option String := none
  priority : Option String := none
  due_date : Option String := none
  user_id : Option Int := none
deriving DecidableEq

/-- Fields of a `PUT /tasks/{id}` payload as consumed by `TaskUpdate`:
every field defaults to `None`. -/
structure TaskUpdateData where
  title : Option String := none
  description : Option String := none
  status : Option String := none
  priority : Option String := none
  due_date : Option String := none
  user_id : Option Int := none
deriving DecidableEq

/-- Entity built by `create_task` before saving: `Task()` with the
payload's fields copied over, `TaskCreate` having defaulted `status` to
`"pending"` and `priority` to `"medium"`. -/
def build_task (now : String) (data : TaskCreateData) : Task :=
  { Task.init now with
      title := data.title,
      description := data.description,
      status := data.status.getD "pending",
      priority := data.priority.getD "medium",
      due_date := data.due_date,
      user_id := data.user_id }

/-- `task_service.create_task`: build the entity, save it (insert), and
return the saved entity's dictionary. -/
def create_task (now : String) (db : TaskTable) (data : TaskCreateData) :
    TaskTable × TaskDict :=
  let p := Task.save now db (build_task now data)
  (p.1, p.2.to_dict)

/-- `task_service.update_task`: find the task; on a miss return `None`;
otherwise overwrite exactly the non-`None` payload fields, save, and
return the updated table with the entity's dictionary. -/
def update_task (now : String) (db : TaskTable) (task_id : Nat)
    (data : TaskUpdateData) : Option (TaskTable × TaskDict) :=
  match Task.find_by_id now db task_id with
  | none => none
  | some existing =>
    let e1 := match data.title with
      | some v => { existing with title := v }
      | none => existing
    let e2 := match data.description with
      | some v => { e1 with description := some v }
      | none => e1
    let e3 := match data.status with
      | some v => { e2 with status := v }
      | none => e2
    let e4 := match data.priority with
      | some v => { e3 with priority := v }
      | none => e3
    let e5 := match data.due_date with
      | some v => { e4 with due_date := some v }
      | none => e4
    let e6 := match data.user_id with
      | some v => { e5 with user_id := some v }
      | none => e5
    let p := Task.save now db e6
    some (p.1, p.2.to_dict)

/-- `task_service.delete_task`: find the task; on a miss report `false`,
otherwise soft-delete it and report `true`. -/
def delete_task (now : String) (db : TaskTable) (task_id : Nat) :
    TaskTable × Bool :=
  match Task.find_by_id now db task_id with
  | none => (db, false)
  | some found => ((Task.delete now db found).1, true)

/-- `task_service.get_tasks`: read the `status` and `assigned_to` filters
from the request and list the matching task dictionaries. -/
def get_tasks (now : String) (db : TaskTable) (user_id : Option Int)
    (status : Option String) : List TaskDict :=
  (Task.find_all now db user_id status).map Task.to_dict

/-- The single-quote character that the f-strings wrap around
interpolated filter values. -/
def sq : String := String.mk ['\x27']

/-- Query text built by `Task.find_all`: the filter values are spliced
into the SQL text by f-strings, the status value between single quotes. -/
def Task.find_all_query (user_id : Option Int) (status : Option String) :
    String :=
  let q0 := "SELECT * FROM tasks WHERE deleted_at IS NULL"
  let q1 := if truthyInt user_id
    then q0 ++ " AND user_id = " ++ toString (user_id.getD 0) else q0
  let q2 := if truthyStr status
    then q1 ++ " AND status = " ++ sq ++ status.getD "" ++ sq else q1
  q2 ++ " ORDER BY created_at DESC"

/-- Query text built by `User.find_by_username`: the username is spliced
into the SQL text between single quotes by an f-string. -/
def User.find_by_username_query (username : String) : String :=
  "SELECT * FROM users WHERE username = " ++ sq ++ username ++ sq

/-- Query text built by `User.find_by_email`. -/
def User.find_by_email_query (email : String) : String :=
  "SELECT * FROM users WHERE email = " ++ sq ++ email ++ sq

/-- Query text built by `User.find_by_api_key`. -/
def User.find_by_api_key_query (api_key : String) : String :=
  "SELECT * FROM users WHERE api_key = " ++ sq ++ api_key ++ sq

/-- One row of the `users` table (schema in `User.save`). -/
structure UserRow where
  id : Nat
  username : String
  email : String
  password_hash : String
  first_name : String
  last_name : String
  is_active : Bool
  created_at : Option String
  updated_at : Option String
  last_login : Option String
  api_key : Option String
deriving DecidableEq

/-- The `users` table with its AUTOINCREMENT counter. -/
structure UserTable where
  rows : List UserRow
  nextId : Nat
deriving DecidableEq

/-- Storage-engine failure: the `sqlite3.IntegrityError` raised when an
INSERT or UPDATE violates the UNIQUE constraints on `username`/`email`. -/
inductive DbError where
  | integrityError
deriving DecidableEq

/-- `User._from_row`: rebuild the entity from a row in column order. -/
def User.from_row (now : String) (r : UserRow) : User :=
  { id := some r.id, username := r.username, email := r.email,
    password_hash := r.password_hash, first_name := r.first_name,
    last_name := r.last_name, is_active := r.is_active,
    created_at := (r.created_at).getD now, updated_at := r.updated_at,
    last_login := r.last_login, api_key := r.api_key }

/-- INSERT branch of `User.save`: the engine rejects the statement with
an integrity error when another row already holds the same `username` or
`email` (UNIQUE columns); otherwise the row is appended (`last_login` is
not in the INSERT column list, so it starts NULL). -/
def User.insert_row (now : String) (db : UserTable) (u : User) :
    Except DbError (UserTable × User) :=
  if db.rows.any (fun r => r.username == u.username || r.email == u.email)
  then .error .integrityError
  else .ok
    ({ rows := db.rows ++
        [{ id := db.nextId, username := u.username, email := u.email,
           password_hash := u.password_hash, first_name := u.first_name,
           last_name := u.last_name, is_active := u.is_active,
           created_at := some u.created_at, updated_at := some now,
           last_login := none, api_key := u.api_key }],
       nextId := db.nextId + 1 },
     { u with id := some db.nextId })

/-- `User.save`: `if self.id:` UPDATE every column from the entity and
bump the row's `updated_at` (the engine rejecting a UNIQUE collision with
another row), else INSERT. -/
def User.save (now : String) (db : UserTable) (u : User) :
    Except DbError (UserTable × User) :=
  match u.id with
  | some i =>
    if i = 0 then User.insert_row now db u
    else
      if db.rows.any (fun r =>
          r.id != i && (r.username == u.username || r.email == u.email))
      then .error .integrityError
      else .ok
        ({ db with rows := db.rows.map (fun r =>
            if r.id = i then
              { r with
                  username := u.username, email := u.email,
                  password_hash := u.password_hash,
                  first_name := u.first_name, last_name := u.last_name,
                  is_active := u.is_active, updated_at := some now,
                  last_login := u.last_login, api_key := u.api_key }
            else r) },
         u)
  | none => User.insert_row now db u

/-- Row selected by `User.find_by_id` (no soft-delete filter for users). -/
def User.find_by_id_row (db : UserTable) (user_id : Nat) :
    Option UserRow :=
  db.rows.find? (fun r => r.id == user_id)

/-- Dictionary produced by `User.to_dict`, as the ordered key/value list
written in the source; note the absent `password_hash` and `api_key`. -/
def User.to_dict (u : User) : List (String × JVal) :=
  [("id", match u.id with | some i => .nat i | none => .null),
   ("username", .str u.username),
   ("email", .str u.email),
   ("first_name", .str u.first_name),
   ("last_name", .str u.last_name),
   ("is_active", .bool u.is_active),
   ("created_at", .str u.created_at),
   ("updated_at", match u.updated_at with | some s => .str s | none => .null),
   ("last_login", match u.last_login with | some s => .str s | none => .null)]

/-- `user_service.get_users`: raw `SELECT * FROM users`, every row mapped
through `_from_row` and `to_dict`. -/
def get_users (now : String) (db : UserTable) : List (List (String × JVal)) :=
  db.rows.map (fun r => (User.from_row now r).to_dict)

/-- `user_service.get_user`: `find_by_id` mapped through `to_dict`. -/
def get_user (now : String) (db : UserTable) (user_id : Nat) :
    Option (List (String × JVal)) :=
  (User.find_by_id_row db user_id).map
    (fun r => (User.from_row now r).to_dict)

/-- Fields of a `POST /users` payload as consumed by `UserCreate`. -/
structure UserCreateData where
  username : String
  email : String
  password : String
  first_name : String := ""
  last_name : String := ""
deriving DecidableEq

/-- `user_service.create_user`: build a fresh `User` from the payload,
hash the plaintext via `set_password`, save, and return the dictionary.
There is no exception handler around `save`, so a storage integrity
error propagates out of the service unchanged. -/
def create_user (hashHex : String → String) (salt : String) (now : String)
    (db : UserTable) (data : UserCreateData) :
    Except DbError (UserTable × List (String × JVal)) :=
  let new_user : User :=
    { User.init now with
        username := data.username, email := data.email,
        first_name := data.first_name, last_name := data.last_name,
        is_active := true }
  let new_user := User.set_password hashHex salt data.password new_user
  match User.save now db new_user with
  | .error e => .error e
  | .ok (db2, saved) => .ok (db2, saved.to_dict)

/-- Concrete task row used to exercise the theorems on sample data. -/
def sample_task_row : TaskRow :=
  { id := 1, title := "Fix login bug",
    description := some "Users cannot login with special characters",
    status := "pending", priority := "high", due_date := none,
    user_id := some 1, created_at := some "2025-10-01T10:00:00",
    updated_at := some "2025-10-01T10:00:00", deleted_at := none }

/-- Concrete soft-deleted task row. -/
def sample_deleted_row : TaskRow :=
  { sample_task_row with
      id := 2, deleted_at := some "2025-10-02T10:00:00" }

/-- Concrete tasks table holding one live and one soft-deleted row. -/
def sample_task_db : TaskTable :=
  { rows := [sample_task_row, sample_deleted_row], nextId := 3 }

/-- Concrete user row mirroring a seeded user. -/
def sample_user_row : UserRow :=
  { id := 1, username := "john_doe", email := "john@example.com",
    password_hash := "abc123:5e884898", first_name := "John",
    last_name := "Doe", is_active := true,
    created_at := some "2025-01-01T00:00:00",
    updated_at := some "2025-01-01T00:00:00", last_login := none,
    api_key := none }

/-- Concrete users table holding one row. -/
def sample_user_db : UserTable :=
  { rows := [sample_user_row], nextId := 2 }

theorem splitOnFirst_of_not_mem {sep : Char} {l : List Char}
    (h : sep ∉ l) : splitOnFirst sep l = none := by
  induction l with
  | nil => rfl
  | cons c cs ih =>
    simp only [List.mem_cons, not_or] at h
    simp [splitOnFirst, Ne.symm h.1, ih h.2]

theorem splitOnFirst_append {sep : Char} {l r : List Char}
    (h : sep ∉ l) : splitOnFirst sep (l ++ sep :: r) = some (l, r) := by
  induction l with
  | nil => simp [splitOnFirst]
  | cons c cs ih =>
    simp only [List.mem_cons, not_or] at h
    simp [splitOnFirst, Ne.symm h.1, ih h.2]

theorem stored_hash_data (hashHex : String → String) (salt p : String) :
    (salt ++ ":" ++ hashHex (p ++ salt)).data
      = salt.data ++ ':' :: (hashHex (p ++ salt)).data := by
  have hcolon : (":" : String).data = [':'] := rfl
  rw [String.data_append, String.data_append, hcolon, List.append_assoc]
  rfl

theorem stored_hash_ne_empty (hashHex : String → String) (salt p : String) :
    salt ++ ":" ++ hashHex (p ++ salt) ≠ "" := by
  intro hc
  have h2 := congrArg String.data hc
  rw [stored_hash_data] at h2
  simp at h2

theorem check_password_stored (hashHex : String → String) (salt : String)
    (hsalt : ':' ∉ salt.data) (u : User) (p q : String) :
    User.check_password hashHex (User.set_password hashHex salt p u) q
      = (hashHex (q ++ salt) == hashHex (p ++ salt)) := by
  simp only [User.check_password, User.set_password]
  rw [if_neg (stored_hash_ne_empty hashHex salt p), stored_hash_data,
    splitOnFirst_append hsalt]

theorem check_password_no_colon (hashHex : String → String) (u : User)
    (q : String) (h : ':' ∉ u.password_hash.data) :
    User.check_password hashHex u q = false := by
  simp only [User.check_password, splitOnFirst_of_not_mem h]
  split <;> rfl

/-- C1: after `set_password(p)`, `check_password(p)` is true and
`check_password(q)` is false for `q ≠ p` (given that the digest is
collision-free on the strings involved and the hex salt contains no `:`);
`check_password` is false whenever the stored `password_hash` is the empty
string or contains no `:` separator. -/
theorem claim1_password_roundtrip (hashHex : String → String)
    (hinj : Function.Injective hashHex)
    (salt : String) (hsalt : ':' ∉ salt.data)
    (u v : User) (p q : String) :
    User.check_password hashHex (User.set_password hashHex salt p u) p = true
    ∧ (q ≠ p →
        User.check_password hashHex (User.set_password hashHex salt p u) q
          = false)
    ∧ (v.password_hash = "" → User.check_password hashHex v q = false)
    ∧ (':' ∉ v.password_hash.data →
        User.check_password hashHex v q = false) := by
  refine ⟨?_, ?_, ?_, ?_⟩
  · rw [check_password_stored hashHex salt hsalt u p p]
    simp
  · intro hqp
    rw [check_password_stored hashHex salt hsalt u p q]
    simp only [beq_eq_false_iff_ne, ne_eq]
    intro heq
    have hsuffix := hinj heq
    have hdq := congrArg String.data hsuffix
    rw [String.data_append, String.data_append] at hdq
    exact hqp (congrArg String.mk (List.append_cancel_right hdq))
  · intro hempty
    simp [User.check_password, hempty]
  · intro hnc
    exact check_password_no_colon hashHex v q hnc

/-- Witness for C1 at `hashHex = id`, salt `"ab"`, passwords `"pw"` and
`"qq"`, and a user whose stored hash `"abc"` lacks the separator. -/
theorem claim1_witness :
    User.check_password id
      (User.set_password id "ab" "pw" (User.init "t0")) "pw" = true
    ∧ User.check_password id
      (User.set_password id "ab" "pw" (User.init "t0")) "qq" = false
    ∧ User.check_password id
      { User.init "t0" with password_hash := "abc" } "pw" = false := by
  have h := claim1_password_roundtrip id (fun _ _ hh => hh) "ab"
    (by decide) (User.init "t0")
    { User.init "t0" with password_hash := "abc" } "pw" "qq"
  exact ⟨h.1, h.2.1 (by decide), h.2.2.2 (by decide)⟩

/-- C2: a row with a non-null `deleted_at` is never the row selected by
`find_by_id` and never among the rows selected by `find_all`, under every
combination of filters; `Task.delete` keeps the row in storage, stamped
with a non-null `deleted_at`. -/
theorem claim2_soft_deleted_hidden (now : String) (db : TaskTable)
    (r : TaskRow) (t : Task) (i : Nat) (uid : Option Int)
    (st : Option String) (hdel : r.deleted_at ≠ none) :
    Task.find_by_id_row db i ≠ some r
    ∧ r ∉ Task.find_all_rows db uid st
    ∧ ((Task.delete now db t).1).rows.length = db.rows.length
    ∧ (∀ r2 ∈ db.rows, t.id = some r2.id →
        { r2 with deleted_at := some now }
          ∈ ((Task.delete now db t).1).rows) := by
  refine ⟨?_, ?_, ?_, ?_⟩
  · intro hfind
    have hp := List.find?_some hfind
    simp only [Bool.and_eq_true, beq_iff_eq] at hp
    exact hdel hp.2
  · intro hmem
    rw [Task.find_all_rows, List.mem_mergeSort, List.mem_filter] at hmem
    have hp := hmem.2
    rw [Task.row_matches] at hp
    simp only [Bool.and_eq_true, beq_iff_eq] at hp
    exact hdel hp.1.1
  · simp [Task.delete]
  · intro r2 hr2 hid
    rw [Task.delete]
    simp only [List.mem_map]
    exact ⟨r2, hr2, by rw [if_pos hid]⟩

/-- Witness for C2 on the sample table: the deleted row with id 2 is
invisible, and deleting the row with id 1 keeps it in storage. -/
theorem claim2_witness :
    Task.find_by_id_row sample_task_db 2 ≠ some sample_deleted_row
    ∧ sample_deleted_row ∉ Task.find_all_rows sample_task_db none none
    ∧ ((Task.delete "t9" sample_task_db
        (Task.from_row "t9" sample_task_row)).1).rows.length
        = sample_task_db.rows.length
    ∧ { sample_task_row with deleted_at := some "t9" }
        ∈ ((Task.delete "t9" sample_task_db
            (Task.from_row "t9" sample_task_row)).1).rows := by
  have h := claim2_soft_deleted_hidden "t9" sample_task_db
    sample_deleted_row (Task.from_row "t9" sample_task_row) 2 none none
    (by decide)
  exact ⟨h.1, h.2.1, h.2.2.1, h.2.2.2 sample_task_row (by decide) rfl⟩

/-- C4: saving a fresh task (no id) assigns it the table's next id, and
`find_by_id` at that id immediately afterwards selects exactly the
inserted row, whose columns carry the submitted values and whose
`created_at` is non-null. -/
theorem claim4_find_after_save (now : String) (db : TaskTable) (t : Task)
    (hid : t.id = none)
    (hfresh : ∀ r ∈ db.rows, r.id ≠ db.nextId) :
    (Task.save now db t).2.id = some db.nextId
    ∧ Task.find_by_id_row (Task.save now db t).1 db.nextId
        = some { id := db.nextId, title := t.title,
                 description := t.description, status := t.status,
                 priority := t.priority, due_date := t.due_date,
                 user_id := t.user_id, created_at := some t.created_at,
                 updated_at := some now, deleted_at := none }
    ∧ (some t.created_at ≠ (none : Option String)) := by
  have hnone : db.rows.find?
      (fun r => r.id == db.nextId && r.deleted_at == none) = none := by
    rw [List.find?_eq_none]
    intro x hx
    simp [hfresh x hx]
  refine ⟨?_, ?_, ?_⟩
  · simp [Task.save, hid, Task.insert_row]
  · simp [Task.save, hid, Task.insert_row, Task.find_by_id_row,
      List.find?_append, hnone, List.find?]
  · simp

/-- Witness for C4: inserting a concrete task into the sample table and
finding it again at id 3. -/
theorem claim4_witness :
    (Task.save "t1" sample_task_db (build_task "t1"
      { title := "Write spec" })).2.id = some 3
    ∧ Task.find_by_id_row
        (Task.save "t1" sample_task_db
          (build_task "t1" { title := "Write spec" })).1 3
      = some { id := 3, title := "Write spec", description := none,
               status := "pending", priority := "medium", due_date := none,
               user_id := none, created_at := some "t1",
               updated_at := some "t1", deleted_at := none } := by
  have h := claim4_find_after_save "t1" sample_task_db
    (build_task "t1" { title := "Write spec" }) rfl (by decide)
  exact ⟨h.1, h.2.1⟩

/-- C7: `create_task` on a payload that omits `status` and `due_date`
returns a dictionary with status `"pending"`, the given priority or
`"medium"`, a null due date, the freshly assigned id, and `created_at`
set to the creation instant. -/
theorem claim7_create_defaults (now : String) (db : TaskTable)
    (data : TaskCreateData) (hst : data.status = none)
    (hdd : data.due_date = none) :
    ((create_task now db data).2).status = "pending"
    ∧ ((create_task now db data).2).priority = data.priority.getD "medium"
    ∧ ((create_task now db data).2).due_date = none
    ∧ ((create_task now db data).2).id = some db.nextId
    ∧ ((create_task now db data).2).created_at = some now := by
  refine ⟨?_, ?_, ?_, ?_, ?_⟩ <;>
    simp [create_task, build_task, Task.save, Task.insert_row,
      Task.to_dict, Task.init, hst, hdd]

/-- Witness for C7 at the spec's example payload
`{title: "Write spec", priority: "high"}`. -/
theorem claim7_witness :
    ((create_task "t1" sample_task_db
      { title := "Write spec", priority := some "high" }).2).status
      = "pending"
    ∧ ((create_task "t1" sample_task_db
      { title := "Write spec", priority := some "high" }).2).priority
      = "high"
    ∧ ((create_task "t1" sample_task_db
      { title := "Write spec", priority := some "high" }).2).due_date
      = none
    ∧ ((create_task "t1" sample_task_db
      { title := "Write spec", priority := some "high" }).2).id = some 3
    ∧ ((create_task "t1" sample_task_db
      { title := "Write spec", priority := some "high" }).2).created_at
      = some "t1" := by
  have h := claim7_create_defaults "t1" sample_task_db
    { title := "Write spec", priority := some "high" } rfl rfl
  exact ⟨h.1, h.2.1, h.2.2.1, h.2.2.2.1, h.2.2.2.2⟩

/-- C8: `create_task` never consults `validate`: even when the built
task's validation errors are non-empty, the task is persisted (one row is
appended) and its representation is returned. -/
theorem claim8_validate_not_enforced (now : String) (db : TaskTable)
    (data : TaskCreateData)
    (hbad : Task.validate now (build_task now data) ≠ []) :
    ((create_task now db data).1).rows.length = db.rows.length + 1
    ∧ (create_task now db data).2
        = Task.to_dict { build_task now data with id := some db.nextId } := by
  constructor
  · simp [create_task, build_task, Task.init, Task.save, Task.insert_row]
  · rfl

/-- Witness for C8: a payload with the out-of-enum status `"bogus"` fails
validation yet is persisted into the sample table. -/
theorem claim8_witness :
    ((create_task "t1" sample_task_db
      { title := "Write spec", status := some "bogus" }).1).rows.length
      = sample_task_db.rows.length + 1
    ∧ (create_task "t1" sample_task_db
        { title := "Write spec", status := some "bogus" }).2
      = Task.to_dict { build_task "t1"
          { title := "Write spec", status := some "bogus" } with
            id := some 3 } := by
  exact claim8_validate_not_enforced "t1" sample_task_db
    { title := "Write spec", status := some "bogus" } (by decide)

/-- C10: `find_all` applies a filter only when it is truthy, so the falsy
values `user_id = 0` and `status = ""` select the same rows as absent
filters — all non-deleted tasks. -/
theorem claim10_falsy_filters (db : TaskTable) :
    Task.find_all_rows db (some 0) none = Task.find_all_rows db none none
    ∧ Task.find_all_rows db none (some "")
        = Task.find_all_rows db none none
    ∧ Task.find_all_rows db (some 0) (some "")
        = Task.find_all_rows db none none := by
  refine ⟨rfl, rfl, rfl⟩

/-- C5: creating a user whose username or email collides with a stored
row makes the storage engine reject the INSERT, and `create_user`, which
has no exception handler, propagates the raw integrity error (so no
duplicate row is produced, but no service-level Conflict is raised
either). -/
theorem claim5_duplicate_unhandled :
    create_user id "salt" "t1" sample_user_db
      { username := "john_doe", email := "new@example.com",
        password := "pw" }
      = .error .integrityError
    ∧ create_user id "salt" "t1" sample_user_db
      { username := "newbie", email := "john@example.com",
        password := "pw" }
      = .error .integrityError := by
  exact ⟨rfl, rfl⟩

/-- C6: the lookup filters are not bound as parameters: the SQL text
built by `find_all` and the user finders varies with — and embeds
verbatim — the supplied value, a quote character in the value landing
unescaped inside the statement. -/
theorem claim6_interpolated_queries :
    Task.find_all_query none (some "a")
      ≠ Task.find_all_query none (some "b")
    ∧ Task.find_all_query none (some ("x" ++ sq ++ " OR 1=1"))
      = "SELECT * FROM tasks WHERE deleted_at IS NULL AND status = "
        ++ sq ++ "x" ++ sq ++ " OR 1=1" ++ sq
        ++ " ORDER BY created_at DESC"
    ∧ User.find_by_username_query ("a" ++ sq ++ " OR 1=1")
      = "SELECT * FROM users WHERE username = " ++ sq ++ "a" ++ sq
        ++ " OR 1=1" ++ sq
    ∧ User.find_by_username_query "u1"
      ≠ User.find_by_username_query "u2" := by
  refine ⟨by decide, by decide, by decide, by decide⟩

/-- C9: `User.to_dict` carries no `api_key` key (nor `password_hash`),
also after `generate_api_key`, so no response assembled by `get_users`,
`get_user` or `create_user` exposes the API key. -/
theorem claim9_no_api_key_exposure (now : String) (db : UserTable)
    (u : User) (key : String) (i : Nat)
    (d1 d2 d3 : List (String × JVal))
    (hashHex : String → String) (salt : String) (data : UserCreateData)
    (db2 : UserTable) :
    "api_key" ∉ (User.to_dict u).map Prod.fst
    ∧ "password_hash" ∉ (User.to_dict u).map Prod.fst
    ∧ "api_key" ∉
        (User.to_dict (User.generate_api_key key u).1).map Prod.fst
    ∧ (d1 ∈ get_users now db → "api_key" ∉ d1.map Prod.fst)
    ∧ (get_user now db i = some d2 → "api_key" ∉ d2.map Prod.fst)
    ∧ (create_user hashHex salt now db data = .ok (db2, d3) →
        "api_key" ∉ d3.map Prod.fst) := by
  have hkeys : ∀ v : User, (User.to_dict v).map Prod.fst
      = ["id", "username", "email", "first_name", "last_name",
         "is_active", "created_at", "updated_at", "last_login"] :=
    fun _ => rfl
  have hnk : ∀ v : User, "api_key" ∉ (User.to_dict v).map Prod.fst := by
    intro v
    rw [hkeys v]
    decide
  refine ⟨hnk u, ?_, hnk _, ?_, ?_, ?_⟩
  · rw [hkeys u]
    decide
  · intro hd
    rw [get_users, List.mem_map] at hd
    obtain ⟨r, _, hr⟩ := hd
    rw [← hr]
    exact hnk _
  · intro hd
    rw [get_user] at hd
    cases hfind : User.find_by_id_row db i with
    | none => rw [hfind] at hd; simp at hd
    | some r =>
      rw [hfind] at hd
      simp only [Option.map_some'] at hd
      rw [← Option.some.inj hd]
      exact hnk _
  · intro hd
    simp only [create_user] at hd
    split at hd
    · simp at hd
    · simp only [Except.ok.injEq, Prod.mk.injEq] at hd
      rw [← hd.2]
      exact hnk _

/-- Witness for C9 on the sample users table: the listed, fetched and
created dictionaries all lack the `api_key` key. -/
theorem claim9_witness :
    "api_key" ∉ (User.to_dict (User.init "t")).map Prod.fst
    ∧ "password_hash" ∉ (User.to_dict (User.init "t")).map Prod.fst
    ∧ "api_key" ∉
        (User.to_dict (User.generate_api_key "K" (User.init "t")).1).map
          Prod.fst
    ∧ "api_key" ∉
        ((User.from_row "t" sample_user_row).to_dict).map Prod.fst
    ∧ "api_key" ∉
        ([("id", JVal.nat 2), ("username", JVal.str "alice"),
          ("email", JVal.str "alice@example.com"),
          ("first_name", JVal.str ""), ("last_name", JVal.str ""),
          ("is_active", JVal.bool true), ("created_at", JVal.str "t"),
          ("updated_at", JVal.null),
          ("last_login", JVal.null)].map Prod.fst) := by
  have h := claim9_no_api_key_exposure "t" sample_user_db (User.init "t")
    "K" 1
    ((User.from_row "t" sample_user_row).to_dict)
    ((User.from_row "t" sample_user_row).to_dict)
    [("id", JVal.nat 2), ("username", JVal.str "alice"),
     ("email", JVal.str "alice@example.com"),
     ("first_name", JVal.str ""), ("last_name", JVal.str ""),
     ("is_active", JVal.bool true), ("created_at", JVal.str "t"),
     ("updated_at", JVal.null), ("last_login", JVal.null)]
    id "s2" { username := "alice", email := "alice@example.com",
              password := "pw" }
    { rows := [sample_user_row,
        { id := 2, username := "alice", email := "alice@example.com",
          password_hash := "s2:pws2", first_name := "", last_name := "",
          is_active := true, created_at := some "t",
          updated_at := some "t", last_login := none, api_key := none }],
      nextId := 3 }
  refine ⟨h.1, h.2.1, h.2.2.1, h.2.2.2.1 (by decide),
    h.2.2.2.2.2 rfl⟩

/-- C3: updating an existing non-deleted task with a payload holding only
`status` rewrites, in storage, exactly that row's `status` and
`updated_at`, and returns the task's previous representation with only
`status` replaced (the in-memory `updated_at` is not refreshed by
`save`, so every other dictionary field is unchanged). -/
theorem claim3_update_only_status (now : String) (db : TaskTable)
    (task_id : Nat) (s : String) (r : TaskRow)
    (hfind : Task.find_by_id_row db task_id = some r)
    (hz : task_id ≠ 0)
    (huniq : ∀ r2 ∈ db.rows, r2.id = task_id → r2 = r) :
    update_task now db task_id { status := some s }
      = some
        ({ db with rows := db.rows.map (fun r2 =>
            if r2.id = task_id then
              { r2 with status := s, updated_at := some now }
            else r2) },
         { Task.to_dict (Task.from_row now r) with status := s }) := by
  have hp := List.find?_some hfind
  simp only [Bool.and_eq_true, beq_iff_eq] at hp
  obtain ⟨hid, hdel⟩ := hp
  have hz2 : ¬(r.id = 0) := by
    rw [hid]
    exact hz
  simp only [update_task, Task.find_by_id, hfind, Option.map_some']
  simp only [Option.some.injEq, Prod.mk.injEq]
  constructor
  · simp only [Task.save, Task.from_row]
    rw [if_neg hz2]
    dsimp only
    congr 1
    apply List.map_congr_left
    intro r2 hr2
    by_cases hc : r2.id = task_id
    · have hr2r : r2 = r := huniq r2 hr2 hc
      subst hr2r
      simp [hc]
    · have hcr : ¬(r2.id = r.id) := fun h => hc (h.trans hid)
      rw [if_neg hcr, if_neg hc]
  · simp only [Task.save, Task.from_row]
    rw [if_neg hz2]
    rfl

/-- Witness for C3 on the sample table: setting only the status of task 1
to `"completed"` leaves every other field of the row and of the returned
dictionary unchanged. -/
theorem claim3_witness :
    update_task "t9" sample_task_db 1 { status := some "completed" }
      = some
        ({ sample_task_db with rows := sample_task_db.rows.map (fun r2 =>
            if r2.id = 1 then
              { r2 with status := "completed", updated_at := some "t9" }
            else r2) },
         { Task.to_dict (Task.from_row "t9" sample_task_row) with
             status := "completed" }) := by
  exact claim3_update_only_status "t9" sample_task_db 1 "completed"
    sample_task_row (by decide) (by decide) (by decide)

end TaskFlow
